import Mathlib

/-!
Verification of the CPU tensor device layer of crabml
(`src/crabml-core/src/cpu/cpu_device.rs`).

The Rust module is shallowly embedded below.  Machine floating-point types
(`f16`, `f32`) are abstracted as type parameters `F16`, `F32` together with a
bundle `FloatOps` of the primitive operations the source calls on them
(`f16::from_bits`, `f16::to_f32`, `f16::from_f32`, `f32::exp`, and the external
GELU kernel `gelu_single : f32 -> f32`).  All structural properties of the
device (table sizes, the widen-apply-narrow pipeline, lazy once-only
initialization, the debug capture store) are proved for every choice of these
operations, hence in particular for the real IEEE ones.  Locking (`Mutex`,
`OnceLock`) is modelled by sequentialized atomic state transitions: each locked
operation is one step on the device state.
-/

set_option autoImplicit false

namespace CrabML

/-- Bundle of the primitive floating-point operations used by
`cpu_device.rs`, abstracted over carrier types `F16` and `F32`.
`fromBits` is `f16::from_bits` (a 16-bit pattern decoded purely by bits),
`toF32` is `f16::to_f32` (exact widening), `fromF32` is `f16::from_f32`
(round to nearest half-precision value), `exp` is `f32::exp`, and
`gelu_single` is the external GELU kernel from `super::primitives`
(signature `f32 -> f32`, so it computes in 32-bit precision). -/
structure FloatOps (F16 F32 : Type) where
  fromBits : Nat → F16
  toF32 : F16 → F32
  fromF32 : F32 → F16
  exp : F32 → F32
  gelu_single : F32 → F32

/-- Model of `crate::tensor::TensorMetrics`, an external collaborator: a
cloneable shared handle to thread-safe counters.  Only its handle identity
matters at this layer. -/
structure TensorMetrics where
  handle : Nat

/-- Model of `TensorMetrics::default()`. -/
def TensorMetrics.default : TensorMetrics := ⟨0⟩

/-- Model of `TensorMetrics::clone`: cloning yields a handle to the same
underlying counters. -/
def TensorMetrics.clone (m : TensorMetrics) : TensorMetrics := m

/-- Model of `super::thread_pool::ThreadPool`, an external collaborator:
a pool handle recording the worker count it was constructed with. -/
structure ThreadPool where
  numWorkers : Nat

/-- Model of `ThreadPool::new(n)`: the requested worker count is stored
unmodified. -/
def ThreadPool.new (n : Nat) : ThreadPool := ⟨n⟩

/-- `CpuTensorDeviceOptions` from `cpu_device.rs` (lines 12-21). -/
structure CpuTensorDeviceOptions where
  debug_named_tensors : Bool
  metrics : TensorMetrics
  thread_num : Nat

/-- `impl Default for CpuTensorDeviceOptions` (lines 23-31). -/
def CpuTensorDeviceOptions.default : CpuTensorDeviceOptions :=
  { debug_named_tensors := false
    metrics := TensorMetrics.default
    thread_num := 1 }

/-- `CpuTensorDeviceOptions::with_thread_num` (lines 34-37): sets
`thread_num`, returns the updated value. -/
def CpuTensorDeviceOptions.with_thread_num
    (self : CpuTensorDeviceOptions) (thread_num : Nat) : CpuTensorDeviceOptions :=
  { self with thread_num := thread_num }

/-- `CpuTensorDeviceOptions::with_debug_named_tensors` (lines 39-42). -/
def CpuTensorDeviceOptions.with_debug_named_tensors
    (self : CpuTensorDeviceOptions) (debug_named_tensors : Bool) : CpuTensorDeviceOptions :=
  { self with debug_named_tensors := debug_named_tensors }

/-- `CpuTensorDeviceOptions::with_metrics` (lines 44-47). -/
def CpuTensorDeviceOptions.with_metrics
    (self : CpuTensorDeviceOptions) (metrics : TensorMetrics) : CpuTensorDeviceOptions :=
  { self with metrics := metrics }

/-- Model of `super::CpuTensor`: the capture store only needs its optional
name and its contents read as full-precision values
(`tensor.buf().iter_f32()`). -/
structure CpuTensor (F32 : Type) where
  name : Option String
  buf : List F32

/-- `CpuTensorDevice` from `cpu_device.rs` (lines 50-59).
`exp_cache : Arc<Vec<f16>>` is the eagerly built table;
`gelu_cache : OnceLock<Vec<f16>>` is modelled as `Option`, `none` standing
for the unset `OnceLock`; `debug_tensors : Mutex<HashMap<String, Vec<f32>>>`
is modelled as an association list with first-match lookup and
replace-on-insert. -/
structure CpuTensorDevice (F16 F32 : Type) where
  opts : CpuTensorDeviceOptions
  metrics : TensorMetrics
  exp_cache : List F16
  gelu_cache : Option (List F16)
  thread_pool : ThreadPool
  debug_tensors : List (String × List F32)

/-- `CpuTensorDevice::init_exp_cache` (lines 108-115):
`(0..65536).map(|x| f16::from_f32(f16::from_bits(x as u16).to_f32().exp())).collect()`. -/
def init_exp_cache {F16 F32 : Type} (ops : FloatOps F16 F32) : List F16 :=
  (List.range 65536).map fun x => ops.fromF32 (ops.exp (ops.toF32 (ops.fromBits x)))

/-- `CpuTensorDevice::init_gelu_cache` (lines 117-124):
`(0..65536).map(|x| { let v = f16::from_bits(x as u16).to_f32(); f16::from_f32(gelu_single(v)) }).collect()`. -/
def init_gelu_cache {F16 F32 : Type} (ops : FloatOps F16 F32) : List F16 :=
  (List.range 65536).map fun x => ops.fromF32 (ops.gelu_single (ops.toF32 (ops.fromBits x)))

/-- `CpuTensorDevice::with_options` (lines 69-82): clones the metrics handle,
builds the thread pool from `opts.thread_num`, eagerly builds the exp cache,
leaves the gelu cache unset and the debug store empty. -/
def with_options {F16 F32 : Type} (ops : FloatOps F16 F32)
    (opts : CpuTensorDeviceOptions) : CpuTensorDevice F16 F32 :=
  { opts := opts
    metrics := opts.metrics.clone
    thread_pool := ThreadPool.new opts.thread_num
    exp_cache := init_exp_cache ops
    gelu_cache := none
    debug_tensors := [] }

/-- `CpuTensorDevice::new` (lines 64-67): `with_options` on the default
options. -/
def CpuTensorDevice.new {F16 F32 : Type} (ops : FloatOps F16 F32) : CpuTensorDevice F16 F32 :=
  with_options ops CpuTensorDeviceOptions.default

/-- `CpuTensorDevice::thread_num` (lines 88-90). -/
def CpuTensorDevice.thread_num {F16 F32 : Type} (d : CpuTensorDevice F16 F32) : Nat :=
  d.opts.thread_num

/-- `CpuTensorDevice::dump_debug_tensor` (lines 96-98):
`self.debug_tensors.lock().unwrap().get(name).cloned()`. -/
def dump_debug_tensor {F16 F32 : Type} (d : CpuTensorDevice F16 F32)
    (name : String) : Option (List F32) :=
  List.lookup name d.debug_tensors

/-- `dump_debug_tensor` as one atomic step on the device state: take the lock
(obtain the map), `get(name).cloned()` (clone each value of the snapshot),
release the lock (the map is handed back as held).  Returns the result paired
with the post-call device. -/
def dump_debug_tensor_run {F16 F32 : Type} (d : CpuTensorDevice F16 F32)
    (name : String) : Option (List F32) × CpuTensorDevice F16 F32 :=
  let held := d.debug_tensors
  let result := (List.lookup name held).map (List.map id)
  (result, { d with debug_tensors := held })

/-- `HashMap::insert` on the association-list model: the new binding replaces
any existing binding for the same key. -/
def mapInsert {F32 : Type} (key : String) (val : List F32)
    (m : List (String × List F32)) : List (String × List F32) :=
  (key, val) :: m.filter fun p => p.fst != key

/-- `CpuTensorDevice::add_debug_tensor` (lines 126-132):
collects `tensor.buf().iter_f32()` into a fresh buffer and inserts it under
`tensor.name.clone().unwrap()`.  The `unwrap` of a missing name is a panic,
modelled as `none`; a successful call returns the updated device. -/
def add_debug_tensor {F16 F32 : Type} (d : CpuTensorDevice F16 F32)
    (tensor : CpuTensor F32) : Option (CpuTensorDevice F16 F32) :=
  let buf := tensor.buf.map id
  match tensor.name with
  | none => none
  | some n => some { d with debug_tensors := mapInsert n buf d.debug_tensors }

/-- `CpuTensorDevice::gelu_cache` (lines 104-106):
`self.gelu_cache.get_or_init(Self::init_gelu_cache)` as one atomic step.
When the `OnceLock` is unset the caller computes `init_gelu_cache` and the
slot transitions to set; when it is set the stored table is returned and the
state is unchanged. -/
def gelu_cache_op {F16 F32 : Type} (ops : FloatOps F16 F32)
    (d : CpuTensorDevice F16 F32) : List F16 × CpuTensorDevice F16 F32 :=
  match d.gelu_cache with
  | some t => (t, d)
  | none =>
    let t := init_gelu_cache ops
    (t, { d with gelu_cache := some t })

/-- Harness for the exactly-once property: perform `n` successive calls of
`gelu_cache_op`, recording every returned table, the final device state, and
how many of the calls ran the table computation (the calls that found the
slot unset). -/
def runGeluCalls {F16 F32 : Type} (ops : FloatOps F16 F32) :
    Nat → CpuTensorDevice F16 F32 → List (List F16) × CpuTensorDevice F16 F32 × Nat
  | 0, d => ([], d, 0)
  | n + 1, d =>
    let step := gelu_cache_op ops d
    let rest := runGeluCalls ops n step.2
    (step.1 :: rest.1, rest.2.1, (if d.gelu_cache.isNone then 1 else 0) + rest.2.2)

/-- Modelled from the spec: the tensor `with_name` operation lives outside
`src/` (only its effect is documented on `CpuTensorDeviceOptions`, lines
14-15: "when enabled, whenever tensor called with `with_name`, the name and
the tensor will be recorded in the device").  It names the tensor and, only
when `debug_named_tensors` is enabled, records it via `add_debug_tensor`;
with the flag disabled the device is untouched. -/
def with_name {F16 F32 : Type} (d : CpuTensorDevice F16 F32)
    (tensor : CpuTensor F32) (n : String) : Option (CpuTensorDevice F16 F32) :=
  if d.opts.debug_named_tensors then
    add_debug_tensor d { tensor with name := some n }
  else
    some d

/-- Run a sequence of `with_name` calls; `none` signals that some call hit
the fatal unnamed-tensor path. -/
def runWithNames {F16 F32 : Type} (d : CpuTensorDevice F16 F32) :
    List (CpuTensor F32 × String) → Option (CpuTensorDevice F16 F32)
  | [] => some d
  | (t, n) :: rest => (with_name d t n).bind fun d2 => runWithNames d2 rest

/-- Concrete instantiation of the abstract float operations used to
exercise theorems on explicit inputs. -/
def natOps : FloatOps Nat Nat :=
  { fromBits := id
    toF32 := id
    fromF32 := id
    exp := fun x => x + 1
    gelu_single := fun x => 2 * x }

/-- Small concrete device used to exercise theorems on explicit inputs:
a device state whose capture store already holds one snapshot. -/
def devX : CpuTensorDevice Nat Nat :=
  { opts := CpuTensorDeviceOptions.default
    metrics := TensorMetrics.default
    exp_cache := []
    gelu_cache := none
    thread_pool := ThreadPool.new 1
    debug_tensors := [("x", [7])] }

/-- Helper: once the gelu slot is set to `t`, every further call returns `t`,
changes nothing, and runs the computation zero times. -/
theorem runGeluCalls_built {F16 F32 : Type} (ops : FloatOps F16 F32)
    (n : Nat) (d : CpuTensorDevice F16 F32) (t : List F16)
    (h : d.gelu_cache = some t) :
    runGeluCalls ops n d = (List.replicate n t, d, 0) := by
  induction n with
  | zero => simp [runGeluCalls]
  | succ n ih => simp [runGeluCalls, gelu_cache_op, h, ih, List.replicate_succ]

/-- C1: the exp cache built by device construction has exactly 65536 entries
and entry `i` is the half-precision narrowing of `exp` applied to the
widened decoding of bit pattern `i`, for every pattern `i` (signed zeros,
subnormals, infinities and NaN patterns included — decoding is by bits, the
pipeline is uniform, and the builder is a total function, so construction
never panics). -/
theorem exp_cache_entries {F16 F32 : Type} (ops : FloatOps F16 F32)
    (opts : CpuTensorDeviceOptions) (i : Nat) (h : i < 65536) :
    (with_options ops opts).exp_cache.length = 65536
      ∧ (with_options ops opts).exp_cache[i]?
          = some (ops.fromF32 (ops.exp (ops.toF32 (ops.fromBits i)))) := by
  constructor
  · simp [with_options, init_exp_cache]
  · simp [with_options, init_exp_cache, h]

/-- C1 witness at the concrete bit pattern 40000. -/
theorem exp_cache_entries_witness :
    (with_options natOps CpuTensorDeviceOptions.default).exp_cache.length = 65536
      ∧ (with_options natOps CpuTensorDeviceOptions.default).exp_cache[40000]?
          = some (natOps.fromF32 (natOps.exp (natOps.toF32 (natOps.fromBits 40000)))) :=
  exp_cache_entries natOps CpuTensorDeviceOptions.default 40000 (by decide)

/-- C2: the table returned by `gelu_cache()` is `init_gelu_cache`, which has
exactly 65536 entries, entry `i` being the half-precision narrowing of
`gelu_single` applied to the widened decoding of bit pattern `i` — the GELU
is evaluated on the 32-bit widening, never directly in half precision. -/
theorem gelu_cache_entries {F16 F32 : Type} (ops : FloatOps F16 F32)
    (opts : CpuTensorDeviceOptions) (i : Nat) (h : i < 65536) :
    (gelu_cache_op ops (with_options ops opts)).1 = init_gelu_cache ops
      ∧ (init_gelu_cache ops).length = 65536
      ∧ (init_gelu_cache ops)[i]?
          = some (ops.fromF32 (ops.gelu_single (ops.toF32 (ops.fromBits i)))) := by
  refine ⟨?_, ?_, ?_⟩
  · simp [gelu_cache_op, with_options]
  · simp [init_gelu_cache]
  · simp [init_gelu_cache, h]

/-- C2 witness at the concrete bit pattern 123. -/
theorem gelu_cache_entries_witness :
    (gelu_cache_op natOps (with_options natOps CpuTensorDeviceOptions.default)).1
        = init_gelu_cache natOps
      ∧ (init_gelu_cache natOps).length = 65536
      ∧ (init_gelu_cache natOps)[123]?
          = some (natOps.fromF32 (natOps.gelu_single (natOps.toF32 (natOps.fromBits 123)))) :=
  gelu_cache_entries natOps CpuTensorDeviceOptions.default 123 (by decide)

/-- Helper: from a state whose gelu slot is unset, `n + 1` calls return the
table `init_gelu_cache` every time and run the computation exactly once. -/
theorem runGeluCalls_succ_fresh {F16 F32 : Type} (ops : FloatOps F16 F32)
    (d : CpuTensorDevice F16 F32) (n : Nat) (h : d.gelu_cache = none) :
    (runGeluCalls ops (n + 1) d).1 = List.replicate (n + 1) (init_gelu_cache ops)
      ∧ (runGeluCalls ops (n + 1) d).2.2 = 1 := by
  have hstep : gelu_cache_op ops d
      = (init_gelu_cache ops, { d with gelu_cache := some (init_gelu_cache ops) }) := by
    simp [gelu_cache_op, h]
  have hrest := runGeluCalls_built ops n
    { d with gelu_cache := some (init_gelu_cache ops) } (init_gelu_cache ops) rfl
  constructor
  · simp [runGeluCalls, hstep, hrest, List.replicate_succ]
  · simp [runGeluCalls, hstep, hrest, h]

/-- C3: starting from a freshly constructed device, a sequence of `n` calls
to `gelu_cache()` runs the table computation exactly `min n 1` times — once
on the first call, never again — and every call returns the same table
`init_gelu_cache`. -/
theorem gelu_cache_exactly_once {F16 F32 : Type} (ops : FloatOps F16 F32)
    (opts : CpuTensorDeviceOptions) (n : Nat) :
    (runGeluCalls ops n (with_options ops opts)).1
        = List.replicate n (init_gelu_cache ops)
      ∧ (runGeluCalls ops n (with_options ops opts)).2.2 = min n 1 := by
  cases n with
  | zero => simp [runGeluCalls]
  | succ n =>
    have h2 := runGeluCalls_succ_fresh ops (with_options ops opts) n rfl
    refine ⟨h2.1, ?_⟩
    rw [h2.2]
    omega

/-- C4: `dump_debug_tensor` returns `none` on a freshly constructed device;
after a capture under `name` it returns exactly that capture; a second
capture under the same name replaces the first; and a captured empty
sequence (`some []`) is distinguishable from never captured (`none`). -/
theorem dump_reflects_latest_capture {F16 F32 : Type} (ops : FloatOps F16 F32)
    (opts : CpuTensorDeviceOptions) (d : CpuTensorDevice F16 F32)
    (name : String) (buf1 buf2 : List F32) :
    dump_debug_tensor (with_options ops opts) name = none
      ∧ (add_debug_tensor d ⟨some name, buf1⟩).map (fun d1 => dump_debug_tensor d1 name)
          = some (some buf1)
      ∧ ((add_debug_tensor d ⟨some name, buf1⟩).bind
            (fun d1 => add_debug_tensor d1 ⟨some name, buf2⟩)).map
          (fun d2 => dump_debug_tensor d2 name) = some (some buf2)
      ∧ some ([] : List F32) ≠ (none : Option (List F32)) := by
  refine ⟨rfl, ?_, ?_, by simp⟩
  · simp [add_debug_tensor, dump_debug_tensor, mapInsert, List.lookup]
  · simp [add_debug_tensor, dump_debug_tensor, mapInsert, List.lookup]

/-- C5 counterexample: a tensor named by the empty string is accepted —
`add_debug_tensor` succeeds and stores the snapshot under `""` instead of
failing fatally, so carrying a NON-EMPTY name is not required by the code. -/
theorem add_debug_tensor_accepts_empty_name :
    (add_debug_tensor (CpuTensorDevice.new natOps) ⟨some "", [5]⟩).isSome = true
      ∧ (add_debug_tensor (CpuTensorDevice.new natOps) ⟨some "", [5]⟩).map
          (fun d1 => dump_debug_tensor d1 "") = some (some [5]) := by
  constructor
  · rfl
  · simp [add_debug_tensor, dump_debug_tensor, mapInsert, List.lookup]

/-- C5 (amended): `add_debug_tensor` requires the tensor to carry a name,
which may be the empty string: with no name it fails fatally (the `unwrap`
panic, never silently ignored); with a name it reads the contents into a
fresh snapshot and inserts or overwrites it under that name. -/
theorem add_debug_tensor_requires_name {F16 F32 : Type}
    (d : CpuTensorDevice F16 F32) (t : CpuTensor F32) :
    (t.name = none → add_debug_tensor d t = none)
      ∧ ∀ n, t.name = some n →
          add_debug_tensor d t
            = some { d with debug_tensors := mapInsert n t.buf d.debug_tensors } := by
  constructor
  · intro h; simp [add_debug_tensor, h]
  · intro n h; simp [add_debug_tensor, h]

/-- C5 witness: the unnamed path fails and the named path inserts. -/
theorem add_debug_tensor_requires_name_witness :
    add_debug_tensor (CpuTensorDevice.new natOps) ⟨none, [3]⟩ = none
      ∧ add_debug_tensor (CpuTensorDevice.new natOps) ⟨some "x", [3]⟩
          = some { CpuTensorDevice.new natOps with
                   debug_tensors :=
                     mapInsert "x" [3] (CpuTensorDevice.new natOps).debug_tensors } :=
  ⟨(add_debug_tensor_requires_name (CpuTensorDevice.new natOps) ⟨none, [3]⟩).1 rfl,
   (add_debug_tensor_requires_name (CpuTensorDevice.new natOps) ⟨some "x", [3]⟩).2 "x" rfl⟩

/-- Helper: with debug capture disabled, a run of `with_name` calls does
nothing to the device. -/
theorem runWithNames_flag_off {F16 F32 : Type} (d : CpuTensorDevice F16 F32)
    (hd : d.opts.debug_named_tensors = false) :
    ∀ calls, runWithNames d calls = some d
  | [] => rfl
  | (t, n) :: rest => by
    simp [runWithNames, with_name, hd, runWithNames_flag_off d hd rest]

/-- C6: on a device constructed with `debug_named_tensors = false`, any
sequence of `with_name` calls leaves the device (in particular the capture
store) unchanged and never reaches the fatal unnamed-tensor path, so
`dump_debug_tensor` returns `none` for every name. -/
theorem debug_store_untouched_when_flag_off {F16 F32 : Type} (ops : FloatOps F16 F32)
    (opts : CpuTensorDeviceOptions) (calls : List (CpuTensor F32 × String)) (name : String) :
    runWithNames (with_options ops (opts.with_debug_named_tensors false)) calls
        = some (with_options ops (opts.with_debug_named_tensors false))
      ∧ dump_debug_tensor (with_options ops (opts.with_debug_named_tensors false)) name
        = none :=
  ⟨runWithNames_flag_off _ rfl calls, rfl⟩

/-- C10: `dump_debug_tensor` is a pure read: as a state step it returns the
looked-up snapshot and hands every device field back unchanged; two
consecutive calls agree; and the snapshot it returns is an independent value
— after a later capture under the same name the new state answers with the
new buffer while the previously returned snapshot is still the old one. -/
theorem dump_debug_tensor_pure_read {F16 F32 : Type} (d : CpuTensorDevice F16 F32)
    (name : String) (buf v : List F32) (d2 : CpuTensorDevice F16 F32) :
    dump_debug_tensor_run d name = (dump_debug_tensor d name, d)
      ∧ (dump_debug_tensor_run ((dump_debug_tensor_run d name).2) name).1
          = (dump_debug_tensor_run d name).1
      ∧ (dump_debug_tensor d name = some v →
          add_debug_tensor d ⟨some name, buf⟩ = some d2 →
            dump_debug_tensor d2 name = some buf ∧ dump_debug_tensor d name = some v) := by
  refine ⟨?_, ?_, ?_⟩
  · unfold dump_debug_tensor_run dump_debug_tensor
    rcases hl : List.lookup name d.debug_tensors with _ | val <;> simp [hl]
  · rfl
  · intro h1 h2
    have hd2 : some { d with debug_tensors := mapInsert name (buf.map id) d.debug_tensors }
        = some d2 := h2
    refine ⟨?_, h1⟩
    rw [← Option.some_inj.mp hd2]
    simp [dump_debug_tensor, mapInsert, List.lookup]

/-- C10 witness on a concrete device with one prior capture. -/
theorem dump_debug_tensor_pure_read_witness :
    dump_debug_tensor_run devX "x" = (dump_debug_tensor devX "x", devX)
      ∧ (dump_debug_tensor_run ((dump_debug_tensor_run devX "x").2) "x").1
          = (dump_debug_tensor_run devX "x").1
      ∧ (dump_debug_tensor
            { devX with debug_tensors := mapInsert "x" [9] devX.debug_tensors } "x"
          = some [9]
        ∧ dump_debug_tensor devX "x" = some [7]) := by
  have h := dump_debug_tensor_pure_read devX "x" [9] [7]
    { devX with debug_tensors := mapInsert "x" [9] devX.debug_tensors }
  exact ⟨h.1, h.2.1, h.2.2 (by decide) (by simp [add_debug_tensor])⟩

/-- C7: `new()` is `with_options` of the default configuration, whose
`debug_named_tensors` is `false` and `thread_num` is `1`; the resulting
device reports `thread_num() = 1` and has debug capture disabled. -/
theorem new_eq_with_options_default {F16 F32 : Type} (ops : FloatOps F16 F32) :
    CpuTensorDevice.new ops = with_options ops CpuTensorDeviceOptions.default
      ∧ CpuTensorDeviceOptions.default.debug_named_tensors = false
      ∧ CpuTensorDeviceOptions.default.thread_num = 1
      ∧ (CpuTensorDevice.new ops).thread_num = 1
      ∧ (CpuTensorDevice.new ops).opts.debug_named_tensors = false :=
  ⟨rfl, rfl, rfl, rfl, rfl⟩

/-- C8: each configuration mutator sets exactly its own field and leaves the
other two untouched, and mutators of distinct fields commute. -/
theorem options_mutators_set_one_field_and_commute
    (c : CpuTensorDeviceOptions) (n : Nat) (b : Bool) (m : TensorMetrics) :
    (c.with_thread_num n).thread_num = n
      ∧ (c.with_thread_num n).debug_named_tensors = c.debug_named_tensors
      ∧ (c.with_thread_num n).metrics = c.metrics
      ∧ (c.with_debug_named_tensors b).debug_named_tensors = b
      ∧ (c.with_debug_named_tensors b).thread_num = c.thread_num
      ∧ (c.with_debug_named_tensors b).metrics = c.metrics
      ∧ (c.with_metrics m).metrics = m
      ∧ (c.with_metrics m).thread_num = c.thread_num
      ∧ (c.with_metrics m).debug_named_tensors = c.debug_named_tensors
      ∧ (c.with_thread_num n).with_debug_named_tensors b
          = (c.with_debug_named_tensors b).with_thread_num n
      ∧ (c.with_thread_num n).with_metrics m
          = (c.with_metrics m).with_thread_num n
      ∧ (c.with_debug_named_tensors b).with_metrics m
          = (c.with_metrics m).with_debug_named_tensors b :=
  ⟨rfl, rfl, rfl, rfl, rfl, rfl, rfl, rfl, rfl, rfl, rfl, rfl⟩

/-- C9: `thread_num` is never validated: `with_thread_num n` stores exactly
`n` for every `n` (zero included), `with_options` hands the stored value
unmodified to `ThreadPool::new`, and the device reports it back. -/
theorem thread_num_passed_through {F16 F32 : Type} (ops : FloatOps F16 F32)
    (c : CpuTensorDeviceOptions) (n : Nat) :
    (c.with_thread_num n).thread_num = n
      ∧ (with_options ops (c.with_thread_num n)).thread_pool = ThreadPool.new n
      ∧ (with_options ops (c.with_thread_num n)).thread_num = n
      ∧ (c.with_thread_num 0).thread_num = 0
      ∧ (with_options ops c).thread_pool = ThreadPool.new c.thread_num
      ∧ (with_options ops c).thread_num = c.thread_num :=
  ⟨rfl, rfl, rfl, rfl, rfl, rfl⟩

end CrabML
